import Mathlib

/-!
Shallow embedding of the ADF4351 synthesizer controller core
(`ADF4351.h` / the implementation file `ADF4351.cpp`).

The C++ class `ADF4351` holds six 32-bit configuration registers, a stored
output frequency, a reference frequency, a power level, an output-enable
flag and a low-noise-mode flag, and drives the chip over a bit-banged
3-wire bus.  Machine integers (`uint32_t`, `uint16_t`, `uint8_t`) are
modelled as `Nat` with explicit `% 2^32` (resp. `% 2^16`) at the points
where the C code can overflow.  The six-element register array
`_registers[6]` is modelled as six named fields `reg0 .. reg5`, with
`getRegister s i` standing for `_registers[i]`.  The bit-banged pin I/O of
`writeRegister` (latch, clock, data waveforms) has no observable effect on
the computation; what `writeRegister` observably does to the rest of the
program is transmit one 32-bit word to the chip, which we record in the
ghost field `transmitted`.
-/

namespace ADF4351

/-- The in-memory state of one `ADF4351` object: the semantic fields
(`_refFreq`, `_frequency`, `_powerLevel`, `_outputEnabled`,
`_lowNoiseMode`), the six register words `_registers[0..5]`, and the ghost
trace of words transmitted on the bus. -/
structure State where
  refFreq : Nat
  frequency : Nat
  powerLevel : Nat
  outputEnabled : Bool
  lowNoiseMode : Bool
  reg0 : Nat
  reg1 : Nat
  reg2 : Nat
  reg3 : Nat
  reg4 : Nat
  reg5 : Nat
  transmitted : List Nat
deriving DecidableEq

/-- Models `_registers[i]` (reads of the six-word register array). -/
def getRegister (s : State) (i : Nat) : Nat :=
  if i = 0 then s.reg0
  else if i = 1 then s.reg1
  else if i = 2 then s.reg2
  else if i = 3 then s.reg3
  else if i = 4 then s.reg4
  else if i = 5 then s.reg5
  else 0

/-- The constructor `ADF4351::ADF4351`: `_frequency = 0`, `_powerLevel = 3`,
`_outputEnabled = true`, `_lowNoiseMode = true`, all registers zeroed.
`_refFreq` is left uninitialized by the constructor; we model it as 0 (it
is only read after `begin` has stored a value into it). -/
def initialState : State :=
  { refFreq := 0, frequency := 0, powerLevel := 3, outputEnabled := true,
    lowNoiseMode := true, reg0 := 0, reg1 := 0, reg2 := 0, reg3 := 0,
    reg4 := 0, reg5 := 0, transmitted := [] }

/-- Models `ADF4351::writeRegister`: shifts one 32-bit word out on the bus, MSB
first, and latches it.  The pin waveform itself is not observable to the
program, so the model records the transmitted word on the ghost trace. -/
def writeRegister (s : State) (value : Nat) : State :=
  { s with transmitted := s.transmitted ++ [value] }

/-- Models `ADF4351::calculateRFDivider`: the tiered choice of the RF output
divider exponent, with strict `<` comparisons exactly as in the source. -/
def calculateRFDivider (frequency : Nat) : Nat :=
  if frequency < 68750000 then 6
  else if frequency < 137500000 then 5
  else if frequency < 275000000 then 4
  else if frequency < 550000000 then 3
  else if frequency < 1100000000 then 2
  else if frequency < 2200000000 then 1
  else 0

/-- The VCO frequency as computed in `ADF4351::updateRegisters`:
`uint32_t vcoFreq = _frequency * rfDivider` where
`uint8_t rfDivider = 1 << divider`.  The product of two 32-bit operands is
performed in `uint32_t`, hence the explicit wrap modulo `2^32`
(`rfDivider = 2^divider ≤ 64` itself always fits in `uint8_t`). -/
def computeVcoFreq (frequency : Nat) : Nat :=
  frequency * 2 ^ calculateRFDivider frequency % 4294967296

/-- Models `uint16_t intValue = vcoFreq / pfdFreq` from `updateRegisters`:
truncating unsigned division, then narrowed to `uint16_t`. -/
def computeIntValue (vcoFreq pfdFreq : Nat) : Nat :=
  vcoFreq / pfdFreq % 65536

/-- Models
`uint32_t fracValue = (uint32_t)((((double)vcoFreq / (double)pfdFreq) - intValue) * mod)`
from `updateRegisters` (with `mod = 1000`).  The `double` arithmetic is
modelled by exact rational arithmetic: the C expression before the cast
denotes (up to double rounding error) the rational
`(vcoFreq/pfdFreq - intValue) * 1000`, and the `(uint32_t)` cast truncates
toward zero, which for this nonnegative value is the floor.  Writing
`q = vcoFreq / pfdFreq` (truncating) the floor equals
`(q - intValue) * 1000 + (vcoFreq % pfdFreq) * 1000 / pfdFreq`; the final
`% 2^32` models the narrowing of the cast result.  Every concrete instance
used in a theorem below is chosen so that the `double` computation is
exact (power-of-two `pfdFreq`) or has rational value far from an integer,
so the model and the C code agree there. -/
def computeFracValue (vcoFreq pfdFreq : Nat) : Nat :=
  ((vcoFreq / pfdFreq - computeIntValue vcoFreq pfdFreq) * 1000
    + vcoFreq % pfdFreq * 1000 / pfdFreq) % 4294967296

/-- Models `ADF4351::updateRegisters`: recomputes all six register words from the
semantic fields.  Each OR/shift mirrors one line of the source; the outer
`% 2^32` models the `uint32_t` width of `_registers[i]` (bitwise AND/OR
commute with truncation to 32 bits, so one outer wrap is faithful). -/
def updateRegisters (s : State) : State :=
  let divider := calculateRFDivider s.frequency
  let vcoFreq := computeVcoFreq s.frequency
  let refDivider := 1
  let pfdFreq := s.refFreq / refDivider
  let intValue := computeIntValue vcoFreq pfdFreq
  let fracValue := computeFracValue vcoFreq pfdFreq
  { s with
    reg0 := (intValue <<< 15 ||| fracValue <<< 3 ||| 0) % 4294967296,
    reg1 := (0 <<< 15 ||| 1 <<< 27 ||| 1000 <<< 3 ||| 1) % 4294967296,
    reg2 := ((if s.lowNoiseMode then 1 <<< 21 else 1 <<< 20) ||| 6 <<< 9
              ||| refDivider <<< 14 ||| 2) % 4294967296,
    reg3 := (s.powerLevel <<< 3 ||| 3 <<< 10 ||| 3) % 4294967296,
    reg4 := (divider <<< 20 ||| (if s.outputEnabled then 0 else 1 <<< 5)
              ||| 200 <<< 12 ||| 4) % 4294967296,
    reg5 := (1 <<< 22 ||| 5) % 4294967296 }

/-- The `for (int i = 5; i >= 0; i--) writeRegister(_registers[i]);` loop:
transmits all six registers in descending index order. -/
def writeAllRegisters (s : State) : State :=
  writeRegister (writeRegister (writeRegister (writeRegister (writeRegister
    (writeRegister s s.reg5) s.reg4) s.reg3) s.reg2) s.reg1) s.reg0

/-- Models `ADF4351::setFrequency`: rejects a frequency outside
[35000000, 4400000000] returning `false` with no state change; otherwise
stores the frequency, recomputes all registers, transmits them all, and
returns `true`.  The `uint32_t` parameter restricts callable inputs to
`frequency < 2^32`. -/
def setFrequency (s : State) (frequency : Nat) : Bool × State :=
  if frequency < 35000000 ∨ 4400000000 < frequency then (false, s)
  else (true, writeAllRegisters (updateRegisters { s with frequency := frequency }))

/-- Models `ADF4351::setPowerLevel`: clamps `level` to at most 3, stores it,
clears bits 3-4 of register 3 (`&= ~(0x03 << 3)`), ORs in the new level at
bit 3, and transmits register 3. -/
def setPowerLevel (s : State) (level : Nat) : State :=
  let lvl := if level > 3 then 3 else level
  let r3 := s.reg3 &&& (4294967295 ^^^ 3 <<< 3) ||| lvl <<< 3
  writeRegister { s with powerLevel := lvl, reg3 := r3 } r3

/-- Models `ADF4351::enableOutput`: clears (enable) or sets (disable) bit 5 of
register 4 and transmits register 4. -/
def enableOutput (s : State) (enable : Bool) : State :=
  let r4 := if enable then s.reg4 &&& (4294967295 ^^^ 1 <<< 5)
            else s.reg4 ||| 1 <<< 5
  writeRegister { s with outputEnabled := enable, reg4 := r4 } r4

/-- Models `ADF4351::setPhase`: clamps `phase` to at most 4095, clears bits 15-26
of register 1 (`&= ~(0xFFF << 15)`), ORs in the clamped phase at bit 15,
and transmits register 1.  Note the class has no `_phase` member: the
phase lives only in register 1. -/
def setPhase (s : State) (phase : Nat) : State :=
  let ph := if phase > 4095 then 4095 else phase
  let r1 := s.reg1 &&& (4294967295 ^^^ 4095 <<< 15) ||| ph <<< 15
  writeRegister { s with reg1 := r1 } r1

/-- Models `ADF4351::setLowNoiseMode`: sets exactly one of bits 21 (low noise)
and 20 (low spur) of register 2, clears the other, transmits register 2. -/
def setLowNoiseMode (s : State) (lowNoise : Bool) : State :=
  let r2 := if lowNoise then (s.reg2 ||| 1 <<< 21) &&& (4294967295 ^^^ 1 <<< 20)
            else s.reg2 &&& (4294967295 ^^^ 1 <<< 21) ||| 1 <<< 20
  writeRegister { s with lowNoiseMode := lowNoise, reg2 := r2 } r2

/-- Models `ADF4351::getFrequency`: returns the stored output frequency. -/
def getFrequency (s : State) : Nat :=
  s.frequency

/-- Models `ADF4351::begin`: stores the reference frequency, loads the hard-coded
baseline register words, transmits all six, then calls
`setFrequency(100000000)`.  (The pin-direction and pin-level setup touches
only the bus lines and is not part of the computational state.) -/
def begin (s : State) (refFreq : Nat) : State :=
  (setFrequency (writeAllRegisters { s with
    refFreq := refFreq,
    reg0 := 0x00580000, reg1 := 0x08008011, reg2 := 0x00004E42,
    reg3 := 0x000004B3, reg4 := 0x00800024, reg5 := 0x00580005 }) 100000000).2

/-- The RF divider tier table as the specification words it: breakpoints
68.75M / 137.5M / 275M / 550M / 1.1G / 2.2G Hz mapping to exponents
{6,5,4,3,2,1,0}, each comparison a strict upper bound.  This is the
spec-side definition used to compare against `calculateRFDivider`. -/
def specDividerTier (f : Nat) : Nat :=
  if f < 68750000 then 6
  else if f < 137500000 then 5
  else if f < 275000000 then 4
  else if f < 550000000 then 3
  else if f < 1100000000 then 2
  else if f < 2200000000 then 1
  else 0

/-- Modelled from the spec: `fracValue = round((vcoFreq/pfdFreq - intValue) × MOD)`
with MOD = 1000 and round-to-nearest (half rounds up) — the fractional
remainder `(vcoFreq mod pfdFreq)/pfdFreq` scaled by 1000 and rounded. -/
def roundFracValue (vcoFreq pfdFreq : Nat) : Nat :=
  (vcoFreq % pfdFreq * 1000 * 2 + pfdFreq) / (2 * pfdFreq)

/-- Register 3's power bitfield (bits 3-4) encodes the stored power
level. -/
def powerConsistent (s : State) : Prop :=
  getRegister s 3 >>> 3 &&& 3 = s.powerLevel

/-- Register 4 bit 5 encodes the output-enable state (set = disabled). -/
def enableConsistent (s : State) : Prop :=
  (getRegister s 4).testBit 5 = !s.outputEnabled

/-- Register 2's noise-mode bits (21 = low noise, 20 = low spur) encode
the stored mode, exactly one of them set. -/
def noiseConsistent (s : State) : Prop :=
  (getRegister s 2).testBit 21 = s.lowNoiseMode ∧
  (getRegister s 2).testBit 20 = !s.lowNoiseMode

/-- Register 1's phase bitfield (bits 15-26). -/
def phaseField (s : State) : Nat :=
  getRegister s 1 >>> 15 &&& 4095

/-- The register words agree with the semantic fields they encode. -/
def consistent (s : State) : Prop :=
  powerConsistent s ∧ enableConsistent s ∧ noiseConsistent s

/-- The low 3 bits of each register word encode its own index. -/
def addrOk (s : State) : Prop :=
  ∀ i, i < 6 → getRegister s i &&& 7 = i

/-- The state after construction and `begin(25000000)` with the default
25 MHz reference crystal: the standard post-initialization configuration,
used as the concrete state of the witnesses below. -/
def demoState : State :=
  begin initialState 25000000

section BitHelpers

/-- A bit AND-ed against a mask whose bit `j` is clear is clear. -/
theorem land_testBit_false_right (x m j : Nat) (hm : m.testBit j = false) :
    (x &&& m).testBit j = false := by
  rw [Nat.testBit_land, hm, Bool.and_false]

/-- Extracting a `w`-bit field at offset `k` out of `x ||| v <<< k`
returns `v` when the field bits of `x` are clear and `v` fits. -/
theorem extractField (x v k w T : Nat) (hv : v < 2 ^ w) (hT : T = 2 ^ w - 1)
    (hx : ∀ i, i < w → x.testBit (k + i) = false) :
    (x ||| v <<< k) >>> k &&& T = v := by
  subst hT
  apply Nat.eq_of_testBit_eq
  intro i
  rw [Nat.testBit_land, Nat.testBit_shiftRight, Nat.testBit_lor, Nat.testBit_shiftLeft,
    Nat.testBit_two_pow_sub_one]
  by_cases hi : i < w
  · have h2 : x.testBit (k + i) = false := hx i hi
    have h3 : k ≤ k + i := Nat.le_add_right k i
    simp [h2, h3, hi, Nat.add_sub_cancel_left]
  · have h2 : v.testBit i = false :=
      Nat.testBit_lt_two_pow
        (lt_of_lt_of_le hv (Nat.pow_le_pow_right (by norm_num) (Nat.le_of_not_lt hi)))
    simp [hi, h2]

/-- Same extraction through a `% 2^n` truncation, for fields lying inside
the low `n` bits. -/
theorem extractFieldMod (x v k w n M T : Nat) (hv : v < 2 ^ w) (hkw : k + w ≤ n)
    (hM : M = 2 ^ n) (hT : T = 2 ^ w - 1)
    (hx : ∀ i, i < w → x.testBit (k + i) = false) :
    ((x ||| v <<< k) % M) >>> k &&& T = v := by
  subst hM; subst hT
  apply Nat.eq_of_testBit_eq
  intro i
  rw [Nat.testBit_land, Nat.testBit_shiftRight, Nat.testBit_mod_two_pow, Nat.testBit_lor,
    Nat.testBit_shiftLeft, Nat.testBit_two_pow_sub_one]
  by_cases hi : i < w
  · have h1 : k + i < n := by omega
    have h2 : x.testBit (k + i) = false := hx i hi
    have h3 : k ≤ k + i := Nat.le_add_right k i
    simp [h1, h2, h3, hi, Nat.add_sub_cancel_left]
  · have h2 : v.testBit i = false :=
      Nat.testBit_lt_two_pow
        (lt_of_lt_of_le hv (Nat.pow_le_pow_right (by norm_num) (Nat.le_of_not_lt hi)))
    simp [hi, h2]

/-- Truncation to 32 bits does not change bits below position 32. -/
theorem testBit_mod32 (y i : Nat) (h : i < 32) :
    (y % 4294967296).testBit i = y.testBit i := by
  have hM : (4294967296 : Nat) = 2 ^ 32 := rfl
  rw [hM, Nat.testBit_mod_two_pow]
  simp [h]

/-- Truncation to 32 bits does not change the low 3 address bits. -/
theorem and_seven_mod32 (y : Nat) : y % 4294967296 &&& 7 = y &&& 7 := by
  apply Nat.eq_of_testBit_eq
  intro i
  rw [Nat.testBit_land, Nat.testBit_land]
  by_cases hi : i < 32
  · rw [testBit_mod32 y i hi]
  · have h7 : (7 : Nat) = 2 ^ 3 - 1 := rfl
    rw [h7, Nat.testBit_two_pow_sub_one]
    have : ¬ i < 3 := by omega
    simp [this]

/-- The low 3 address bits distribute over OR. -/
theorem and_seven_lor (a b : Nat) : (a ||| b) &&& 7 = a &&& 7 ||| b &&& 7 :=
  Nat.and_distrib_right a b 7

/-- A value shifted left by at least 3 has clear low 3 address bits. -/
theorem shiftLeft_and_seven (v k : Nat) (hk : 3 ≤ k) : v <<< k &&& 7 = 0 := by
  apply Nat.eq_of_testBit_eq
  intro i
  rw [Nat.testBit_land, Nat.testBit_shiftLeft]
  have h7 : (7 : Nat) = 2 ^ 3 - 1 := rfl
  rw [h7, Nat.testBit_two_pow_sub_one]
  by_cases hi : i < 3
  · have hki : ¬ k ≤ i := by omega
    simp [hki]
  · simp [hi]

/-- AND-ing with a mask that keeps the low 3 bits keeps the address bits. -/
theorem and_mask_and_seven (x m : Nat) (hm : m &&& 7 = 7) :
    x &&& m &&& 7 = x &&& 7 := by
  rw [Nat.and_assoc, hm]

end BitHelpers

/-- C1: for every representable frequency `f` in [35000000, 4400000000]
(the parameter is a `uint32_t`, so `f < 2^32`), `setFrequency` returns
true, stores `f` as the output frequency, and `getFrequency` then returns
`f`. -/
theorem setFrequency_in_range_succeeds (s : State) (f : Nat)
    (h1 : 35000000 ≤ f) (h2 : f ≤ 4400000000) (h3 : f < 4294967296) :
    (setFrequency s f).1 = true ∧ (setFrequency s f).2.frequency = f ∧
    getFrequency (setFrequency s f).2 = f := by
  have hc : ¬ (f < 35000000 ∨ 4400000000 < f) := by omega
  unfold setFrequency
  rw [if_neg hc]
  exact ⟨rfl, rfl, rfl⟩

/-- Witness for C1 at `f = 145000000`. -/
theorem setFrequency_in_range_succeeds_witness :
    (setFrequency initialState 145000000).1 = true ∧
    (setFrequency initialState 145000000).2.frequency = 145000000 ∧
    getFrequency (setFrequency initialState 145000000).2 = 145000000 :=
  setFrequency_in_range_succeeds initialState 145000000 (by decide) (by decide) (by decide)

/-- C2: for every frequency outside [35000000, 4400000000], `setFrequency`
returns false and changes nothing: the state (hence `getFrequency`, the
six-word register array, and the transmitted-word trace) is exactly as
before the call. -/
theorem setFrequency_out_of_range_no_change (s : State) (f : Nat)
    (h : f < 35000000 ∨ 4400000000 < f) :
    (setFrequency s f).1 = false ∧ (setFrequency s f).2 = s ∧
    getFrequency (setFrequency s f).2 = getFrequency s ∧
    (∀ i, getRegister (setFrequency s f).2 i = getRegister s i) ∧
    (setFrequency s f).2.transmitted = s.transmitted := by
  unfold setFrequency
  rw [if_pos h]
  exact ⟨rfl, rfl, rfl, fun i => rfl, rfl⟩

/-- Witness for C2 at `f = 1000`. -/
theorem setFrequency_out_of_range_no_change_witness :
    (setFrequency initialState 1000).1 = false ∧
    (setFrequency initialState 1000).2 = initialState ∧
    getFrequency (setFrequency initialState 1000).2 = getFrequency initialState ∧
    (∀ i, getRegister (setFrequency initialState 1000).2 i = getRegister initialState i) ∧
    (setFrequency initialState 1000).2.transmitted = initialState.transmitted :=
  setFrequency_out_of_range_no_change initialState 1000 (Or.inl (by decide))

/-- C3: on valid frequencies the chosen RF divider exponent is exactly the
spec's breakpoint tier table (strict upper bounds, so a frequency exactly
at a breakpoint falls into the lower-divider tier), and the choice is
antitone: `f1 < f2` gives an exponent for `f1` at least that for `f2`. -/
theorem calculateRFDivider_matches_spec_tiers (f1 f2 : Nat)
    (h1 : 35000000 ≤ f1) (h12 : f1 < f2) (h2 : f2 ≤ 4400000000) :
    calculateRFDivider f1 = specDividerTier f1 ∧
    calculateRFDivider f2 = specDividerTier f2 ∧
    calculateRFDivider f2 ≤ calculateRFDivider f1 ∧
    calculateRFDivider 68749999 = 6 ∧ calculateRFDivider 68750000 = 5 ∧
    calculateRFDivider 137499999 = 5 ∧ calculateRFDivider 137500000 = 4 ∧
    calculateRFDivider 274999999 = 4 ∧ calculateRFDivider 275000000 = 3 ∧
    calculateRFDivider 549999999 = 3 ∧ calculateRFDivider 550000000 = 2 ∧
    calculateRFDivider 1099999999 = 2 ∧ calculateRFDivider 1100000000 = 1 ∧
    calculateRFDivider 2199999999 = 1 ∧ calculateRFDivider 2200000000 = 0 := by
  refine ⟨rfl, rfl, ?_, by decide, by decide, by decide, by decide, by decide, by decide,
    by decide, by decide, by decide, by decide, by decide, by decide⟩
  unfold calculateRFDivider
  split_ifs <;> omega

/-- Witness for C3 at `f1 = 137500000`, `f2 = 145000000`. -/
theorem calculateRFDivider_matches_spec_tiers_witness :
    calculateRFDivider 137500000 = specDividerTier 137500000 ∧
    calculateRFDivider 145000000 = specDividerTier 145000000 ∧
    calculateRFDivider 145000000 ≤ calculateRFDivider 137500000 ∧
    calculateRFDivider 68749999 = 6 ∧ calculateRFDivider 68750000 = 5 ∧
    calculateRFDivider 137499999 = 5 ∧ calculateRFDivider 137500000 = 4 ∧
    calculateRFDivider 274999999 = 4 ∧ calculateRFDivider 275000000 = 3 ∧
    calculateRFDivider 549999999 = 3 ∧ calculateRFDivider 550000000 = 2 ∧
    calculateRFDivider 1099999999 = 2 ∧ calculateRFDivider 1100000000 = 1 ∧
    calculateRFDivider 2199999999 = 1 ∧ calculateRFDivider 2200000000 = 0 :=
  calculateRFDivider_matches_spec_tiers 137500000 145000000 (by decide) (by decide) (by decide)

/-- C4: for every valid input frequency the mathematical VCO frequency
`f × 2^d` with `d` the chosen divider exponent lies in
[2200000000, 4400000000]. -/
theorem vco_frequency_in_band (f : Nat) (h1 : 35000000 ≤ f) (h2 : f ≤ 4400000000) :
    2200000000 ≤ f * 2 ^ calculateRFDivider f ∧
    f * 2 ^ calculateRFDivider f ≤ 4400000000 := by
  unfold calculateRFDivider
  split_ifs <;> norm_num <;> omega

/-- Witness for C4 at `f = 35000000`. -/
theorem vco_frequency_in_band_witness :
    2200000000 ≤ 35000000 * 2 ^ calculateRFDivider 35000000 ∧
    35000000 * 2 ^ calculateRFDivider 35000000 ≤ 4400000000 :=
  vco_frequency_in_band 35000000 (by decide) (by decide)

/-- C8: out-of-range power levels and phases are silently clamped: any
`level > 3` leaves the controller in exactly the state `setPowerLevel 3`
produces (in particular level 4 behaves as level 3), and any
`phase > 4095` leaves it in exactly the state `setPhase 4095` produces;
neither setter returns an error (both return the new state only). -/
theorem power_phase_clamped (s : State) (level phase : Nat)
    (hl : 3 < level) (hp : 4095 < phase) :
    setPowerLevel s level = setPowerLevel s 3 ∧
    setPhase s phase = setPhase s 4095 ∧
    setPowerLevel s 4 = setPowerLevel s 3 := by
  refine ⟨?_, ?_, ?_⟩ <;> simp [setPowerLevel, setPhase, hl, hp]

/-- Witness for C8 at `level = 4`, `phase = 4096`. -/
theorem power_phase_clamped_witness :
    setPowerLevel initialState 4 = setPowerLevel initialState 3 ∧
    setPhase initialState 4096 = setPhase initialState 4095 ∧
    setPowerLevel initialState 4 = setPowerLevel initialState 3 :=
  power_phase_clamped initialState 4 4096 (by decide) (by decide)

/-- C9: `updateRegisters` computes the VCO frequency as the 32-bit product
`frequency * 2^divider`, which wraps modulo `2^32`; whenever the true
product exceeds `2^32 - 1` the computed value is strictly smaller than the
mathematical VCO frequency, and concretely at `f = 67500000` (divider
exponent 6, true VCO 4320000000) the INT and FRAC values and register 0
are derived from the wrapped product 25032704, namely INT = 1 and FRAC = 1
instead of the 172 the mathematical VCO frequency would give. -/
theorem vco_product_wraps_32bit (f : Nat) (h1 : 35000000 ≤ f) (h2 : f < 4294967296)
    (hbig : 4294967295 < f * 2 ^ calculateRFDivider f) :
    computeVcoFreq f = f * 2 ^ calculateRFDivider f % 4294967296 ∧
    computeVcoFreq f < f * 2 ^ calculateRFDivider f ∧
    calculateRFDivider 67500000 = 6 ∧
    67500000 * 2 ^ 6 = 4320000000 ∧
    computeVcoFreq 67500000 = 25032704 ∧
    computeIntValue (computeVcoFreq 67500000) 25000000 = 1 ∧
    computeFracValue (computeVcoFreq 67500000) 25000000 = 1 ∧
    (updateRegisters { initialState with refFreq := 25000000, frequency := 67500000 }).reg0
      = 1 <<< 15 ||| 1 <<< 3 ∧
    computeIntValue (computeVcoFreq 67500000) 25000000 ≠ 4320000000 / 25000000 := by
  refine ⟨rfl, ?_, by decide, by decide, by decide, by decide, by decide, by decide, by decide⟩
  unfold computeVcoFreq
  omega

/-- Witness for C9 at `f = 67500000`. -/
theorem vco_product_wraps_32bit_witness :
    computeVcoFreq 67500000 = 67500000 * 2 ^ calculateRFDivider 67500000 % 4294967296 ∧
    computeVcoFreq 67500000 < 67500000 * 2 ^ calculateRFDivider 67500000 ∧
    calculateRFDivider 67500000 = 6 ∧
    67500000 * 2 ^ 6 = 4320000000 ∧
    computeVcoFreq 67500000 = 25032704 ∧
    computeIntValue (computeVcoFreq 67500000) 25000000 = 1 ∧
    computeFracValue (computeVcoFreq 67500000) 25000000 = 1 ∧
    (updateRegisters { initialState with refFreq := 25000000, frequency := 67500000 }).reg0
      = 1 <<< 15 ||| 1 <<< 3 ∧
    computeIntValue (computeVcoFreq 67500000) 25000000 ≠ 4320000000 / 25000000 :=
  vco_product_wraps_32bit 67500000 (by decide) (by decide) (by decide)

/-- C5 counterexample: with `pfdFreq = 33554432 = 2^25` (so every `double`
step of the C expression is exact) and frequency 2214646199 (divider
exponent 0, `vcoFreq = 2214646199`), the scaled fractional remainder is
`53687000/33554432 ≈ 1.6000000238`.  The code's truncating cast stores
FRAC = 1 in register 0, while round-to-nearest as claimed would give 2. -/
theorem fracValue_truncates_not_rounds :
    computeFracValue 2214646199 33554432 = 1 ∧
    roundFracValue 2214646199 33554432 = 2 ∧
    computeFracValue 2214646199 33554432 ≠ roundFracValue 2214646199 33554432 ∧
    (setFrequency { initialState with refFreq := 33554432 } 2214646199).2.reg0 >>> 3 &&& 4095
      = 1 :=
  ⟨by decide, by decide, by decide, by decide⟩

/-- C5 amended: on every successful `setFrequency`, with
`pfdFreq = referenceFrequencyHz / 1` positive and the quotient in
`uint16_t` range, the programmed value is `intValue = ⌊vcoFreq/pfdFreq⌋`,
and the fractional numerator is the scaled remainder truncated toward zero
(the floor), `fracValue = ⌊(vcoFreq/pfdFreq - intValue) * 1000⌋
= (vcoFreq mod pfdFreq) * 1000 / pfdFreq`, not rounded to nearest. -/
theorem fracValue_is_floor (vco pfd : Nat) (hp : 0 < pfd) (hq : vco / pfd < 65536) :
    computeIntValue vco pfd = vco / pfd ∧
    computeFracValue vco pfd = vco % pfd * 1000 / pfd ∧
    (computeFracValue vco pfd : ℤ) =
      ⌊(((vco : ℚ) / (pfd : ℚ)) - ((vco / pfd : ℕ) : ℚ)) * 1000⌋ := by
  have hiv : computeIntValue vco pfd = vco / pfd := by
    unfold computeIntValue
    exact Nat.mod_eq_of_lt hq
  have hrem : vco % pfd < pfd := Nat.mod_lt vco hp
  have hsmall : vco % pfd * 1000 / pfd < 1000 := by
    rw [Nat.div_lt_iff_lt_mul hp]
    calc vco % pfd * 1000 < pfd * 1000 := by
          exact Nat.mul_lt_mul_of_lt_of_le hrem (le_refl 1000) (by norm_num)
      _ = 1000 * pfd := Nat.mul_comm pfd 1000
  have hfrac : computeFracValue vco pfd = vco % pfd * 1000 / pfd := by
    unfold computeFracValue
    rw [hiv, Nat.sub_self, Nat.zero_mul, Nat.zero_add]
    exact Nat.mod_eq_of_lt (by omega)
  refine ⟨hiv, hfrac, ?_⟩
  have hp0 : (pfd : ℚ) ≠ 0 := Nat.cast_ne_zero.mpr (by omega)
  have key : ((vco : ℚ)) / (pfd : ℚ) - ((vco / pfd : ℕ) : ℚ)
      = ((vco % pfd : ℕ) : ℚ) / (pfd : ℚ) := by
    rw [eq_div_iff hp0, sub_mul, div_mul_cancel₀ _ hp0]
    have hmod := Nat.div_add_mod vco pfd
    have hcast : ((pfd * (vco / pfd) + vco % pfd : ℕ) : ℚ) = ((vco : ℕ) : ℚ) := by
      exact_mod_cast congrArg (fun n => ((n : ℕ) : ℚ)) hmod
    push_cast at hcast
    linarith
  have hnn : (0 : ℚ) ≤ ((vco % pfd * 1000 : ℕ) : ℚ) / (pfd : ℚ) := by positivity
  rw [hfrac, key]
  calc ((vco % pfd * 1000 / pfd : ℕ) : ℤ)
      = (⌊((vco % pfd * 1000 : ℕ) : ℚ) / (pfd : ℚ)⌋₊ : ℤ) := by
        rw [Nat.floor_div_nat, Nat.floor_natCast]
    _ = ⌊((vco % pfd * 1000 : ℕ) : ℚ) / (pfd : ℚ)⌋ := Int.natCast_floor_eq_floor hnn
    _ = ⌊((vco % pfd : ℕ) : ℚ) / (pfd : ℚ) * 1000⌋ := by
        congr 1
        push_cast
        ring

/-- Witness for the amended C5 theorem at `vco = 2214646199`,
`pfd = 33554432`. -/
theorem fracValue_is_floor_witness :
    computeIntValue 2214646199 33554432 = 2214646199 / 33554432 ∧
    computeFracValue 2214646199 33554432 = 2214646199 % 33554432 * 1000 / 33554432 ∧
    (computeFracValue 2214646199 33554432 : ℤ) =
      ⌊(((2214646199 : ℚ) / (33554432 : ℚ)) - ((2214646199 / 33554432 : ℕ) : ℚ)) * 1000⌋ :=
  fracValue_is_floor 2214646199 33554432 (by decide) (by decide)

/-- C10: since the parameter of `setFrequency` is a `uint32_t`
(maximum 4294967295 < 4400000000), the upper-bound rejection branch can
never fire: for every representable `f`, `setFrequency` returns false iff
`f < 35000000`, and `4400000000 < f` is impossible. -/
theorem setFrequency_false_iff_below_min (s : State) (f : Nat) (h : f < 4294967296) :
    ((setFrequency s f).1 = false ↔ f < 35000000) ∧ ¬ 4400000000 < f := by
  refine ⟨?_, by omega⟩
  by_cases hf : f < 35000000
  · have hc : f < 35000000 ∨ 4400000000 < f := Or.inl hf
    unfold setFrequency
    rw [if_pos hc]
    simp [hf]
  · have hc : ¬ (f < 35000000 ∨ 4400000000 < f) := by omega
    unfold setFrequency
    rw [if_neg hc]
    simp [hf]

/-- Lemma: `updateRegisters` rebuilds every register from the semantic fields, so
the rebuilt words are consistent with them (the power level must fit its
2-bit field, which every reachable state satisfies). -/
theorem consistent_updateRegisters (s : State) (hpl : s.powerLevel ≤ 3) :
    consistent (updateRegisters s) := by
  refine ⟨?_, ?_, ?_, ?_⟩
  · show ((s.powerLevel <<< 3 ||| 3 <<< 10 ||| 3) % 4294967296) >>> 3 &&& 3 = s.powerLevel
    rw [Nat.lor_comm (s.powerLevel <<< 3) (3 <<< 10), Nat.lor_assoc,
      Nat.lor_comm (s.powerLevel <<< 3) 3, ← Nat.lor_assoc]
    exact extractFieldMod (3 <<< 10 ||| 3) s.powerLevel 3 2 32 4294967296 3
      (by omega : s.powerLevel < 4) (by norm_num) rfl rfl
      (fun i hi => by interval_cases i <;> decide)
  · show ((calculateRFDivider s.frequency <<< 20
        ||| (if s.outputEnabled then 0 else 1 <<< 5) ||| 200 <<< 12 ||| 4)
        % 4294967296).testBit 5 = !s.outputEnabled
    rw [testBit_mod32 _ 5 (by norm_num)]
    cases hoe : s.outputEnabled <;>
      simp [Nat.testBit_lor, Nat.testBit_shiftLeft] <;> decide
  · show ((( if s.lowNoiseMode then 1 <<< 21 else 1 <<< 20) ||| 6 <<< 9
        ||| 1 <<< 14 ||| 2) % 4294967296).testBit 21 = s.lowNoiseMode
    rw [testBit_mod32 _ 21 (by norm_num)]
    cases hln : s.lowNoiseMode <;>
      simp [Nat.testBit_lor, Nat.testBit_shiftLeft] <;> decide
  · show ((( if s.lowNoiseMode then 1 <<< 21 else 1 <<< 20) ||| 6 <<< 9
        ||| 1 <<< 14 ||| 2) % 4294967296).testBit 20 = !s.lowNoiseMode
    rw [testBit_mod32 _ 20 (by norm_num)]
    cases hln : s.lowNoiseMode <;>
      simp [Nat.testBit_lor, Nat.testBit_shiftLeft] <;> decide

/-- Witness for C10 at `f = 1000`. -/
theorem setFrequency_false_iff_below_min_witness :
    ((setFrequency initialState 1000).1 = false ↔ 1000 < 35000000) ∧
    ¬ 4400000000 < 1000 :=
  setFrequency_false_iff_below_min initialState 1000 (by decide)

/-- An accepted `setFrequency` leaves the registers consistent with the
semantic fields, because it rebuilds them all via `updateRegisters`. -/
theorem consistent_setFrequency_accepted (t : State) (f : Nat) (hpl : t.powerLevel ≤ 3)
    (hlo : 35000000 ≤ f) (hhi : f ≤ 4400000000) :
    consistent (setFrequency t f).2 := by
  have hc : ¬ (f < 35000000 ∨ 4400000000 < f) := by omega
  unfold setFrequency
  rw [if_neg hc]
  exact consistent_updateRegisters { t with frequency := f } hpl

/-- C6 amended: after initialization and after every setter, register 3's
power bitfield, register 4 bit 5 and register 2's noise-mode bits stay
consistent with the semantic state fields, including across a
`setFrequency` that rewrites all six registers.  The phase, however, is
not part of the semantic state: `setPhase p` writes `min p 4095` into
register 1's phase bitfield, but any subsequent successful `setFrequency`
resets that bitfield to 0 rather than preserving the most recently set
phase. -/
theorem setters_keep_registers_consistent (s : State) (r f lvl ph : Nat) (en ln : Bool)
    (hcons : consistent s) (hpl : s.powerLevel ≤ 3) :
    consistent (begin s r) ∧
    consistent (setFrequency s f).2 ∧
    consistent (setPowerLevel s lvl) ∧
    consistent (enableOutput s en) ∧
    consistent (setPhase s ph) ∧
    consistent (setLowNoiseMode s ln) ∧
    phaseField (setPhase s ph) = min ph 4095 ∧
    (35000000 ≤ f → f ≤ 4400000000 → phaseField (setFrequency s f).2 = 0) := by
  refine ⟨?_, ?_, ?_, ?_, ?_, ?_, ?_, ?_⟩
  · unfold begin
    exact consistent_setFrequency_accepted _ 100000000 hpl (by norm_num) (by norm_num)
  · by_cases hc : f < 35000000 ∨ 4400000000 < f
    · unfold setFrequency
      rw [if_pos hc]
      exact hcons
    · push_neg at hc
      exact consistent_setFrequency_accepted s f hpl (by omega) (by omega)
  · refine ⟨?_, hcons.2.1, hcons.2.2⟩
    show (s.reg3 &&& (4294967295 ^^^ 3 <<< 3) ||| (if lvl > 3 then 3 else lvl) <<< 3) >>> 3 &&& 3
        = (if lvl > 3 then 3 else lvl)
    exact extractField (s.reg3 &&& (4294967295 ^^^ 3 <<< 3)) (if lvl > 3 then 3 else lvl) 3 2 3
      (by split <;> omega : (if lvl > 3 then 3 else lvl) < 4) rfl
      (fun i hi => land_testBit_false_right _ _ _ (by interval_cases i <;> decide))
  · refine ⟨hcons.1, ?_, hcons.2.2⟩
    cases en
    · show (s.reg4 ||| 1 <<< 5).testBit 5 = true
      rw [Nat.testBit_lor, (by decide : ((1 : Nat) <<< 5).testBit 5 = true), Bool.or_true]
    · show (s.reg4 &&& (4294967295 ^^^ 1 <<< 5)).testBit 5 = false
      exact land_testBit_false_right _ _ _ (by decide)
  · exact hcons
  · refine ⟨hcons.1, hcons.2.1, ?_, ?_⟩
    · cases ln
      · show (s.reg2 &&& (4294967295 ^^^ 1 <<< 21) ||| 1 <<< 20).testBit 21 = false
        rw [Nat.testBit_lor, land_testBit_false_right s.reg2 _ 21 (by decide),
          (by decide : ((1 : Nat) <<< 20).testBit 21 = false)]
        decide
      · show ((s.reg2 ||| 1 <<< 21) &&& (4294967295 ^^^ 1 <<< 20)).testBit 21 = true
        rw [Nat.testBit_land, Nat.testBit_lor,
          (by decide : ((1 : Nat) <<< 21).testBit 21 = true), Bool.or_true,
          (by decide : ((4294967295 ^^^ 1 <<< 20 : Nat)).testBit 21 = true)]
        decide
    · cases ln
      · show (s.reg2 &&& (4294967295 ^^^ 1 <<< 21) ||| 1 <<< 20).testBit 20 = true
        rw [Nat.testBit_lor, (by decide : ((1 : Nat) <<< 20).testBit 20 = true), Bool.or_true]
      · show ((s.reg2 ||| 1 <<< 21) &&& (4294967295 ^^^ 1 <<< 20)).testBit 20 = false
        exact land_testBit_false_right _ _ _ (by decide)
  · show (s.reg1 &&& (4294967295 ^^^ 4095 <<< 15) ||| (if ph > 4095 then 4095 else ph) <<< 15)
        >>> 15 &&& 4095 = min ph 4095
    rw [extractField (s.reg1 &&& (4294967295 ^^^ 4095 <<< 15)) (if ph > 4095 then 4095 else ph)
      15 12 4095 (by split <;> omega : (if ph > 4095 then 4095 else ph) < 4096) rfl
      (fun i hi => land_testBit_false_right _ _ _ (by interval_cases i <;> decide))]
    rw [Nat.min_def]
    split_ifs <;> omega
  · intro hlo hhi
    have hc : ¬ (f < 35000000 ∨ 4400000000 < f) := by omega
    unfold setFrequency
    rw [if_neg hc]
    show ((0 <<< 15 ||| 1 <<< 27 ||| 1000 <<< 3 ||| 1) % 4294967296) >>> 15 &&& 4095 = 0
    decide

/-- C6 counterexample: starting from the freshly initialized controller,
`setPhase 7` puts 7 into register 1's phase bitfield, but the next
successful `setFrequency` rewrites register 1 with a zero phase field, so
the bitfield no longer encodes the most recently set phase value 7. -/
theorem phase_field_reset_by_setFrequency :
    phaseField (setPhase demoState 7) = 7 ∧
    phaseField (setFrequency (setPhase demoState 7) 2200000000).2 = 0 ∧
    (0 : Nat) ≠ 7 :=
  ⟨by decide, by decide, by decide⟩

/-- Witness for the amended C6 theorem on the initialized controller. -/
theorem setters_keep_registers_consistent_witness :
    consistent (begin demoState 25000000) ∧
    consistent (setFrequency demoState 145000000).2 ∧
    consistent (setPowerLevel demoState 2) ∧
    consistent (enableOutput demoState false) ∧
    consistent (setPhase demoState 5) ∧
    consistent (setLowNoiseMode demoState false) ∧
    phaseField (setPhase demoState 5) = min 5 4095 ∧
    (35000000 ≤ 145000000 → 145000000 ≤ 4400000000 →
      phaseField (setFrequency demoState 145000000).2 = 0) :=
  setters_keep_registers_consistent demoState 25000000 145000000 2 5 false false
    (by unfold consistent powerConsistent enableConsistent noiseConsistent; decide)
    (by decide)

/-- Every register `updateRegisters` writes carries its own index in its
low 3 address bits. -/
theorem addrOk_updateRegisters (s : State) : addrOk (updateRegisters s) := by
  intro i hi
  interval_cases i
  · show ((computeIntValue (computeVcoFreq s.frequency) (s.refFreq / 1) <<< 15
        ||| computeFracValue (computeVcoFreq s.frequency) (s.refFreq / 1) <<< 3 ||| 0)
        % 4294967296) &&& 7 = 0
    rw [and_seven_mod32, and_seven_lor, and_seven_lor,
      shiftLeft_and_seven (computeIntValue (computeVcoFreq s.frequency) (s.refFreq / 1)) 15
        (by norm_num),
      shiftLeft_and_seven (computeFracValue (computeVcoFreq s.frequency) (s.refFreq / 1)) 3
        (le_refl 3)]
    decide
  · show ((0 <<< 15 ||| 1 <<< 27 ||| 1000 <<< 3 ||| 1) % 4294967296) &&& 7 = 1
    decide
  · show (((if s.lowNoiseMode then 1 <<< 21 else 1 <<< 20) ||| 6 <<< 9 ||| 1 <<< 14 ||| 2)
        % 4294967296) &&& 7 = 2
    rw [and_seven_mod32]
    cases s.lowNoiseMode <;> decide
  · show ((s.powerLevel <<< 3 ||| 3 <<< 10 ||| 3) % 4294967296) &&& 7 = 3
    rw [and_seven_mod32, and_seven_lor, and_seven_lor,
      shiftLeft_and_seven s.powerLevel 3 (le_refl 3)]
    decide
  · show ((calculateRFDivider s.frequency <<< 20 ||| (if s.outputEnabled then 0 else 1 <<< 5)
        ||| 200 <<< 12 ||| 4) % 4294967296) &&& 7 = 4
    rw [and_seven_mod32, and_seven_lor, and_seven_lor, and_seven_lor,
      shiftLeft_and_seven (calculateRFDivider s.frequency) 20 (by norm_num)]
    cases s.outputEnabled <;> decide
  · show ((1 <<< 22 ||| 5) % 4294967296) &&& 7 = 5
    decide

/-- C7: after initialization and after any setter call, the low 3 bits of
each register word encode that register's own index
(`registers[i] & 0b111 == i` for i in 0..5); no field update alters the
address bits. -/
theorem address_bits_invariant (s : State) (r f lvl ph : Nat) (en ln : Bool)
    (hs : addrOk s) :
    addrOk (begin s r) ∧ addrOk (setFrequency s f).2 ∧ addrOk (setPowerLevel s lvl) ∧
    addrOk (enableOutput s en) ∧ addrOk (setPhase s ph) ∧ addrOk (setLowNoiseMode s ln) := by
  have haccept : ∀ (t : State) (g : Nat), 35000000 ≤ g → g ≤ 4400000000 →
      addrOk (setFrequency t g).2 := by
    intro t g hlo hhi
    have hc : ¬ (g < 35000000 ∨ 4400000000 < g) := by omega
    unfold setFrequency
    rw [if_neg hc]
    exact addrOk_updateRegisters { t with frequency := g }
  refine ⟨?_, ?_, ?_, ?_, ?_, ?_⟩
  · unfold begin
    exact haccept _ 100000000 (by norm_num) (by norm_num)
  · by_cases hc : f < 35000000 ∨ 4400000000 < f
    · unfold setFrequency
      rw [if_pos hc]
      exact hs
    · push_neg at hc
      exact haccept s f (by omega) (by omega)
  · intro i hi
    interval_cases i
    · exact hs 0 (by norm_num)
    · exact hs 1 (by norm_num)
    · exact hs 2 (by norm_num)
    · show (s.reg3 &&& (4294967295 ^^^ 3 <<< 3) ||| (if lvl > 3 then 3 else lvl) <<< 3) &&& 7 = 3
      rw [and_seven_lor, and_mask_and_seven _ _ (by decide),
        shiftLeft_and_seven _ 3 (le_refl 3), Nat.or_zero]
      exact hs 3 (by norm_num)
    · exact hs 4 (by norm_num)
    · exact hs 5 (by norm_num)
  · intro i hi
    interval_cases i
    · exact hs 0 (by norm_num)
    · exact hs 1 (by norm_num)
    · exact hs 2 (by norm_num)
    · exact hs 3 (by norm_num)
    · cases en
      · show (s.reg4 ||| 1 <<< 5) &&& 7 = 4
        rw [and_seven_lor, shiftLeft_and_seven 1 5 (by norm_num), Nat.or_zero]
        exact hs 4 (by norm_num)
      · show (s.reg4 &&& (4294967295 ^^^ 1 <<< 5)) &&& 7 = 4
        rw [and_mask_and_seven _ _ (by decide)]
        exact hs 4 (by norm_num)
    · exact hs 5 (by norm_num)
  · intro i hi
    interval_cases i
    · exact hs 0 (by norm_num)
    · show (s.reg1 &&& (4294967295 ^^^ 4095 <<< 15) ||| (if ph > 4095 then 4095 else ph) <<< 15)
          &&& 7 = 1
      rw [and_seven_lor, and_mask_and_seven _ _ (by decide),
        shiftLeft_and_seven _ 15 (by norm_num), Nat.or_zero]
      exact hs 1 (by norm_num)
    · exact hs 2 (by norm_num)
    · exact hs 3 (by norm_num)
    · exact hs 4 (by norm_num)
    · exact hs 5 (by norm_num)
  · intro i hi
    interval_cases i
    · exact hs 0 (by norm_num)
    · exact hs 1 (by norm_num)
    · cases ln
      · show (s.reg2 &&& (4294967295 ^^^ 1 <<< 21) ||| 1 <<< 20) &&& 7 = 2
        rw [and_seven_lor, and_mask_and_seven _ _ (by decide),
          shiftLeft_and_seven 1 20 (by norm_num), Nat.or_zero]
        exact hs 2 (by norm_num)
      · show ((s.reg2 ||| 1 <<< 21) &&& (4294967295 ^^^ 1 <<< 20)) &&& 7 = 2
        rw [and_mask_and_seven _ _ (by decide), and_seven_lor,
          shiftLeft_and_seven 1 21 (by norm_num), Nat.or_zero]
        exact hs 2 (by norm_num)
    · exact hs 3 (by norm_num)
    · exact hs 4 (by norm_num)
    · exact hs 5 (by norm_num)

/-- Witness for C7 on the initialized controller. -/
theorem address_bits_invariant_witness :
    addrOk (begin demoState 25000000) ∧ addrOk (setFrequency demoState 145000000).2 ∧
    addrOk (setPowerLevel demoState 2) ∧ addrOk (enableOutput demoState false) ∧
    addrOk (setPhase demoState 5) ∧ addrOk (setLowNoiseMode demoState false) :=
  address_bits_invariant demoState 25000000 145000000 2 5 false false
    (by unfold addrOk; decide)

end ADF4351
